import Mathlib

/- Shallow embedding of the bundy in-memory data-store core: the transactional
   zone-reload engine (ZoneWriter / ZoneTable / ZoneDataLoader contract), the
   auth RRL table skeleton, and the nsas HashTable.

   The ZoneWriter implementation itself is not part of the available sources;
   it is modelled from the specification (section 4.1), while the reference
   mock loader is translated directly from
   src/lib/datasrc/tests/memory/zone_writer_unittest.cc.  The RRL table
   constructor and accessors are translated from src/bin/auth/rrl/rrl_table.h;
   its expand / expandEntries bodies are modelled from the specification.
   The nsas HashTable is translated from src/lib/nsas/hash_table.h. -/

set_option autoImplicit false

/-- Failure kinds observable by callers of the writer.  `zoneLoaderError`
models `ZoneLoaderException`, `segmentGrown` models `MemorySegmentGrown`,
`unexpected` models `bundy::Unexpected` (typed, derived from the base error
type), `stdError` models a plain `std::runtime_error`, `untypedInt` models a
thrown `int`, and `testException` models the test's `TestException` class
(not derived from `std::exception`). -/
inductive Failure where
  | invalidOperation : Failure
  | zoneLoaderError : String → Failure
  | segmentGrown : Failure
  | unexpected : String → Failure
  | stdError : String → Failure
  | untypedInt : Int → Failure
  | testException : Failure
deriving DecidableEq

/-- ZoneData is modelled by an allocation identity (distinct allocations from
the memory segment get distinct ids) plus whether any record was inserted
(the mock loader optionally inserts one subdomain node). -/
structure ZoneData where
  id : Nat
  hasRecords : Bool
deriving DecidableEq

/-- Result codes of `ZoneTable::findZone` (datasrc/result.h). -/
inductive RCode where
  | SUCCESS : RCode
  | NOTFOUND : RCode
  | PARTIAL_MATCH : RCode
deriving DecidableEq

/-- Result of `ZoneTable::findZone`: code, the ZONE_EMPTY flag, and the found
zone data (if any). -/
structure FindResult where
  code : RCode
  zone_empty : Bool
  zone_data : Option ZoneData
deriving DecidableEq

/-- The zone table: an association of zone name to (ZoneData, ZONE_EMPTY flag). -/
abbrev ZTable := List (String × ZoneData × Bool)

/-- Find a zone by name. -/
def findZone : ZTable → String → FindResult
  | [], _ => ⟨RCode.NOTFOUND, false, none⟩
  | (n, d, f) :: rest, q =>
    if n = q then ⟨RCode.SUCCESS, f, some d⟩ else findZone rest q

/-- Atomically replace (or add) the entry for a name, returning the previously
installed ZoneData, if any. -/
def addOrReplace : ZTable → String → ZoneData → Bool → Option ZoneData × ZTable
  | [], n, d, f => (none, [(n, d, f)])
  | (n2, d2, f2) :: rest, n, d, f =>
    if n2 = n then (some d2, (n, d, f) :: rest)
    else
      let r := addOrReplace rest n d f
      (r.1, (n2, d2, f2) :: r.2)

/-- The zone-table segment: writability flag, an allocation counter giving
fresh ZoneData identities, and the zone table it holds. -/
structure Segment where
  writable : Bool
  nextId : Nat
  table : ZTable
deriving DecidableEq

/-- Allocate a fresh ZoneData in the segment (models `ZoneData::create`). -/
def allocZoneData (seg : Segment) (hasRecords : Bool) : ZoneData × Segment :=
  (⟨seg.nextId, hasRecords⟩, { seg with nextId := seg.nextId + 1 })

theorem findZone_addOrReplace (t : ZTable) (n : String) (d : ZoneData) (f : Bool) :
    findZone (addOrReplace t n d f).2 n = ⟨RCode.SUCCESS, f, some d⟩ := by
  induction t with
  | nil => simp [addOrReplace, findZone]
  | cons hd tl ih =>
    obtain ⟨n2, d2, f2⟩ := hd
    by_cases h : n2 = n <;> simp [addOrReplace, findZone, h, ih]

/-- The ZoneDataLoader contract consumed by the writer (spec section 4.2):
a stateful loader over loader-state type `σ`.  Each operation returns its
result (or failure) together with the updated loader state and segment;
a failing operation may still have updated the state. -/
structure LoaderOps (σ : Type) where
  loadIncremental : Nat → σ → Segment → Except Failure Bool × σ × Segment
  getLoadedData : σ → Option ZoneData
  commit : ZoneData → σ → Segment → Except Failure ZoneData × σ × Segment
  isDataReused : σ → Bool

/-- States of the writer state machine (spec section 4.1). -/
inductive WState where
  | INIT : WState
  | LOADED : WState
  | INSTALLED : WState
  | CLEANED : WState
deriving DecidableEq

/-- Modelled from the spec: the `ZoneWriter` state machine (section 4.1).
The implementation file (zone_writer.cc) is not among the available sources;
this structure holds the writer's intermediate state: the target zone name,
the `allow_load_error` flag, the state-machine state, the current loader
state (if a loader has been created), the loaded ZoneData, the EMPTY marker
set by the lenient load-error path, and the ZoneData displaced by install
(owned by the writer for later cleanup). -/
structure ZoneWriter (σ : Type) where
  name : String
  allow_load_error : Bool
  state : WState
  loaderSt : Option σ
  data : Option ZoneData
  emptyMark : Bool
  old_data : Option ZoneData
deriving DecidableEq

/-- A freshly constructed writer in state `INIT`. -/
def ZoneWriter.fresh (σ : Type) (name : String) (allow : Bool) : ZoneWriter σ :=
  ⟨name, allow, WState.INIT, none, none, false, none⟩

/-- Modelled from the spec: the `ZoneWriter` constructor fails immediately
with invalid-operation if the segment is not writable (section 4.1). -/
def mkZoneWriter (σ : Type) (seg : Segment) (name : String) (allow : Bool) :
    Except Failure (ZoneWriter σ) :=
  if seg.writable then Except.ok (ZoneWriter.fresh σ name allow)
  else Except.error Failure.invalidOperation

/-- Modelled from the spec: `ZoneWriter::load(count_limit, err_out)`
(section 4.1).  Misuse in a state other than `INIT` raises invalid-operation
without touching the loader.  Otherwise the writer obtains a loader from the
caller-supplied factory (passing the currently installed data, if any) on the
first call, performs a bounded (or, for `count_limit = 0`, complete) unit of
work, and on completion fetches the loaded data: `none` (NULL) is rejected
with invalid-operation.  A loader-level data error is recovered, when
`allow_load_error` is set, by recording the reason into the provided
`err_out` and synthesizing an empty ZoneData with the EMPTY marker; any
other failure propagates and the writer stays in `INIT` with partial loader
state discarded (strong guarantee). -/
def ZoneWriter.load {σ : Type} (ops : LoaderOps σ) (factory : Option ZoneData → σ)
    (w : ZoneWriter σ) (count_limit : Nat) (err_out : Option String)
    (seg : Segment) :
    Except Failure Bool × ZoneWriter σ × Segment × Option String :=
  if w.state ≠ WState.INIT then
    (Except.error Failure.invalidOperation, w, seg, err_out)
  else
    let lst := match w.loaderSt with
      | some l => l
      | none => factory (findZone seg.table w.name).zone_data
    match ops.loadIncremental count_limit lst seg with
    | (Except.ok false, l2, seg2) =>
      (Except.ok false, { w with loaderSt := some l2 }, seg2, err_out)
    | (Except.ok true, l2, seg2) =>
      match ops.getLoadedData l2 with
      | none =>
        (Except.error Failure.invalidOperation, { w with loaderSt := none },
         seg2, err_out)
      | some d =>
        (Except.ok true,
         { w with state := WState.LOADED, loaderSt := some l2,
                  data := some d, emptyMark := false }, seg2, err_out)
    | (Except.error (Failure.zoneLoaderError msg), l2, seg2) =>
      if w.allow_load_error then
        let a := allocZoneData seg2 false
        (Except.ok true,
         { w with state := WState.LOADED, loaderSt := some l2,
                  data := some a.1, emptyMark := true }, a.2,
         err_out.map fun _ => msg)
      else
        (Except.error (Failure.zoneLoaderError msg), { w with loaderSt := none },
         seg2, err_out)
    | (Except.error f, _, seg2) =>
      (Except.error f, { w with loaderSt := none }, seg2, err_out)

/-- Modelled from the spec: the install-time commit retry loop.  On
*segment-grown* the raw pointers are discarded and the commit is retried on
the rebuilt context, at most `fuel` more times; any other outcome is final. -/
def commitWithRetry {σ : Type} (ops : LoaderOps σ) :
    Nat → ZoneData → σ → Segment → Except Failure ZoneData × σ × Segment
  | fuel, d, lst, seg =>
    match ops.commit d lst seg with
    | (Except.error Failure.segmentGrown, l2, seg2) =>
      match fuel with
      | 0 => (Except.error Failure.segmentGrown, l2, seg2)
      | f + 1 => commitWithRetry ops f d l2 seg2
    | r => r

/-- Modelled from the spec: install retries the commit at most a small,
bounded number of times; the reference mock expects at most 2 commits per
install, i.e. one retry. -/
def installRetryCap : Nat := 1

/-- Modelled from the spec: `ZoneWriter::install` (section 4.1).  Misuse in a
state other than `LOADED` raises invalid-operation.  Otherwise the loader's
commit is attempted with the bounded *segment-grown* retry loop; if commit
raises any other failure the candidate data is treated as corrupt: an empty
placeholder flagged ZONE_EMPTY is installed at the writer's zone name and
the original failure is rethrown unchanged.  On success the entry is
atomically replaced in the zone table, the displaced ZoneData becomes owned
by the writer, and the writer transitions to `INSTALLED`. -/
def ZoneWriter.install {σ : Type} (ops : LoaderOps σ) (w : ZoneWriter σ)
    (seg : Segment) : Except Failure Unit × ZoneWriter σ × Segment :=
  if w.state ≠ WState.LOADED then
    (Except.error Failure.invalidOperation, w, seg)
  else
    match w.loaderSt, w.data with
    | some lst, some d =>
      match commitWithRetry ops installRetryCap d lst seg with
      | (Except.ok d2, l2, seg2) =>
        let r := addOrReplace seg2.table w.name d2 w.emptyMark
        (Except.ok (),
         { w with state := WState.INSTALLED, loaderSt := some l2,
                  old_data := r.1 },
         { seg2 with table := r.2 })
      | (Except.error Failure.segmentGrown, l2, seg2) =>
        (Except.error Failure.segmentGrown, { w with loaderSt := some l2 }, seg2)
      | (Except.error f, l2, seg2) =>
        let a := allocZoneData seg2 false
        let r := addOrReplace a.2.table w.name a.1 true
        (Except.error f,
         { w with loaderSt := some l2, old_data := r.1 },
         { a.2 with table := r.2 })
    | _, _ => (Except.error Failure.invalidOperation, w, seg)

/-- Modelled from the spec: `ZoneWriter::cleanup` releases any ZoneData the
writer still owns and transitions to the terminal `CLEANED` state. -/
def ZoneWriter.cleanup {σ : Type} (w : ZoneWriter σ) : ZoneWriter σ :=
  { w with state := WState.CLEANED, loaderSt := none, data := none,
           old_data := none }

/-- Configuration flags of the test fixture steering the mock loader
(zone_writer_unittest.cc, ZoneWriterTest).  `throw_on_commit`: 0 = none,
1 = MemorySegmentGrown (once), 2 = Unexpected, 3 = other std exception,
4 = not even derived from std::exception. -/
structure MockCfg where
  load_throw : Bool
  load_loader_throw : Bool
  load_null : Bool
  load_data : Bool
  throw_on_commit : Nat
deriving DecidableEq

/-- Mutable state of a MockLoader instance (zone_writer_unittest.cc,
MockLoader): the old data handed to it by the factory, the commit counter,
the loaded data, the incremental-call flag, and the load-called flag. -/
structure MockLoader where
  old_data : Option ZoneData
  num_committed : Nat
  loaded_data : Option ZoneData
  incremental_called : Bool
  load_called : Bool
deriving DecidableEq

/-- A freshly constructed MockLoader. -/
def MockLoader.start (old : Option ZoneData) : MockLoader :=
  ⟨old, 0, none, false, false⟩

/-- MockLoader::load (zone_writer_unittest.cc lines 82-110): sets the
load-called flag; throws TestException or ZoneLoaderException if so
configured; returns NULL if configured; returns the old data unchanged if
one was handed over (reuse); otherwise creates fresh ZoneData, with a record
inserted when `load_data` is set. -/
def mockLoad (cfg : MockCfg) (s : MockLoader) (seg : Segment) :
    Except Failure (Option ZoneData) × MockLoader × Segment :=
  let s1 := { s with load_called := true }
  if cfg.load_throw then (Except.error Failure.testException, s1, seg)
  else if cfg.load_loader_throw then
    (Except.error (Failure.zoneLoaderError "faked loader exception"), s1, seg)
  else if cfg.load_null then (Except.ok none, s1, seg)
  else
    match s1.old_data with
    | some d => (Except.ok (some d), { s1 with loaded_data := some d }, seg)
    | none =>
      let a := allocZoneData seg cfg.load_data
      (Except.ok (some a.1), { s1 with loaded_data := some a.1 }, a.2)

/-- MockLoader::loadIncremental (zone_writer_unittest.cc lines 111-120):
with a non-zero count limit it returns false on the first call and performs
the load, returning true, on the second; with count limit 0 it loads at
once. -/
def mockLoadIncremental (cfg : MockCfg) (count_limit : Nat) (s : MockLoader)
    (seg : Segment) : Except Failure Bool × MockLoader × Segment :=
  if count_limit = 0 ∨ s.incremental_called then
    match mockLoad cfg s seg with
    | (Except.ok _, s2, seg2) => (Except.ok true, s2, seg2)
    | (Except.error f, s2, seg2) => (Except.error f, s2, seg2)
  else (Except.ok false, { s with incremental_called := true }, seg)

/-- MockLoader::commit (zone_writer_unittest.cc lines 121-135).  With
`throw_on_commit = 1` the commit counter is post-incremented inside the
condition, so the counter advances on every such call but MemorySegmentGrown
is thrown only on the first; 2, 3, 4 throw the other failure kinds; otherwise
the update data is returned unchanged. -/
def mockCommit (cfg : MockCfg) (d : ZoneData) (s : MockLoader) (seg : Segment) :
    Except Failure ZoneData × MockLoader × Segment :=
  if cfg.throw_on_commit = 1 then
    if s.num_committed < 1 then
      (Except.error Failure.segmentGrown,
       { s with num_committed := s.num_committed + 1 }, seg)
    else (Except.ok d, { s with num_committed := s.num_committed + 1 }, seg)
  else if cfg.throw_on_commit = 2 then
    (Except.error (Failure.unexpected "test unexpected"), s, seg)
  else if cfg.throw_on_commit = 3 then
    (Except.error (Failure.stdError "test unexpected"), s, seg)
  else if cfg.throw_on_commit = 4 then
    (Except.error (Failure.untypedInt 42), s, seg)
  else (Except.ok d, s, seg)

/-- The mock loader packaged as the loader contract, for a given fixture
configuration (the fixture flags are read through pointers at call time, so
each call sees the fixture's current configuration). -/
def mockOps (cfg : MockCfg) : LoaderOps MockLoader :=
  ⟨mockLoadIncremental cfg, fun s => s.loaded_data, mockCommit cfg,
   fun s => if cfg.load_null then false else s.old_data.isSome⟩

/-- The fixture's loaderCreator (zone_writer_unittest.cc lines 186-199): when
reuse of old data is not requested, the old data handed to the loader is
reset to NULL. -/
def mockCreator (reuse : Bool) (old : Option ZoneData) : MockLoader :=
  MockLoader.start (if reuse then old else none)

/-- Fixture default configuration: no throwing, no data. -/
def cfgDefault : MockCfg := ⟨false, false, false, false, 0⟩

/-- Fixture configuration with `load_throw_` set (load throws TestException). -/
def cfgLoadThrow : MockCfg := ⟨true, false, false, false, 0⟩

/-- Fixture configuration with `load_data_` set (loaded zone has a record). -/
def cfgLoadData : MockCfg := ⟨false, false, false, true, 0⟩

/-- Fixture configuration with `load_loader_throw_` set (load throws
ZoneLoaderException). -/
def cfgLoaderThrow : MockCfg := ⟨false, true, false, false, 0⟩

/-- Fixture configuration with `throw_on_commit_ = 1` (commit throws
MemorySegmentGrown exactly once). -/
def cfgGrowOnCommit : MockCfg := ⟨false, false, false, false, 1⟩

/-- Fixture configuration with the given `throw_on_commit_` value. -/
def cfgCommitFail (k : Nat) : MockCfg := ⟨false, false, false, false, k⟩

/-- One generation of the RRL hash table (rrl_table.h, struct Hash): its
rehash-inspection moment, its generation id, and its bucket-vector size. -/
structure RRLHash where
  check_time : Int
  gen : Nat
  binCount : Nat
deriving DecidableEq

/-- The RRL table fields (rrl_table.h, RRLTable): the entry cap, the live
entry count, the sizes of the stable entry blocks, the current and
previous-generation hash tables, the generation counter and the adaptive
sizing counters. -/
structure RRLTable where
  max_entries : Nat
  num_entries : Nat
  entry_blocks : List Nat
  hash : Option RRLHash
  old_hash : Option RRLHash
  hash_gen : Nat
  searches : Nat
  probes : Nat
deriving DecidableEq

/-- The RRLTable constructor (rrl_table.h lines 61-64): no entries, no hash
generations yet, all counters zero. -/
def RRLTable.create (max_entries : Nat) : RRLTable :=
  ⟨max_entries, 0, [], none, none, 0, 0, 0⟩

/-- RRLTable::getEntryCount (rrl_table.h line 69). -/
def RRLTable.getEntryCount (t : RRLTable) : Nat := t.num_entries

/-- RRLTable::getBinSize (rrl_table.h lines 74-77): total bins over the
current and previous generation. -/
def RRLTable.getBinSize (t : RRLTable) : Nat :=
  (match t.hash with | some h => h.binCount | none => 0) +
  (match t.old_hash with | some h => h.binCount | none => 0)

/-- RRLTable::getGeneration (rrl_table.h lines 82-88): `-1` while there is no
hash table; otherwise the current generation, guarded by the assertion
`hash_->gen_ == hash_gen_` — a failing assertion is modelled as `none`. -/
def RRLTable.getGeneration (t : RRLTable) : Option Int :=
  match t.hash with
  | none => some (-1)
  | some h => if h.gen = t.hash_gen then some (Int.ofNat h.gen) else none

/-- Modelled from the spec: the precomputed prime size sequence from which a
new generation's bucket count is drawn (section 4.4; rrl_table.cc is not
among the available sources). -/
def rrlBinSizes : List Nat := [1009, 2039, 4093, 8191, 16381]

/-- Modelled from the spec: the next bucket count, the first of the
precomputed sequence exceeding the current size (section 4.4). -/
def nextBinCount (cur : Nat) : Nat :=
  match rrlBinSizes.find? (fun p => cur < p) with
  | some p => p
  | none => 2 * cur + 1

/-- Current bucket count, 0 when no hash exists yet. -/
def RRLTable.curBinCount (t : RRLTable) : Nat :=
  match t.hash with
  | some h => h.binCount
  | none => 0

/-- Modelled from the spec: RRLTable::expand (section 4.4; rrl_table.cc is
not among the available sources).  When the observed load factor (tracked
via `searches` and `probes`) exceeds a threshold — and always when no hash
has been allocated yet — a new generation is allocated: the generation
counter is bumped, the current hash is moved into `old_hash` (destroying any
prior `old_hash`), and a new hash sized from the precomputed prime sequence
is installed, carrying the bumped generation id. -/
def RRLTable.expand (t : RRLTable) (now : Int) : RRLTable :=
  if t.hash.isSome ∧ t.probes ≤ 2 * t.searches then t
  else
    let newGen := t.hash_gen + 1
    { t with hash_gen := newGen,
             old_hash := t.hash,
             hash := some ⟨now, newGen, nextBinCount t.curBinCount⟩ }

/-- Modelled from the spec: RRLTable::expandEntries (section 4.4;
rrl_table.cc is not among the available sources): allocate another stable
block of entry records; existing entries, the hash generations and the
generation counter are untouched. -/
def RRLTable.expandEntries (t : RRLTable) (count_to_add : Nat) : RRLTable :=
  { t with entry_blocks := t.entry_blocks ++ [count_to_add] }

/-- States of an RRLTable reachable through the public operations:
construction, expand, and expandEntries. -/
inductive RRLReachable : RRLTable → Prop where
  | create : ∀ m, RRLReachable (RRLTable.create m)
  | expand : ∀ t now, RRLReachable t → RRLReachable (t.expand now)
  | expandEntries : ∀ t c, RRLReachable t → RRLReachable (t.expandEntries c)

/-- The nsas hash table (hash_table.h): a vector of bucket lists.  The
per-slot mutex and the shared-pointer wrapper are not modelled; a bucket
holds the stored objects in list order. -/
structure NsasHashTable (T : Type) where
  buckets : List (List T)
deriving DecidableEq

/-- The bucket-scan part of HashTable::add (hash_table.h lines 255-277):
walk the chain; on the first object matching the key, fail if `replace` is
not set, otherwise erase it and leave the loop; finally push the new object
at the back. -/
def bucketAdd {T : Type} (cmp : T → String → Bool) (obj : T) (key : String)
    (replace : Bool) : List T → Bool × List T
  | [] => (true, [obj])
  | x :: xs =>
    if cmp x key then
      if replace then (true, xs ++ [obj]) else (false, x :: xs)
    else
      let r := bucketAdd cmp obj key replace xs
      (r.1, x :: r.2)

/-- HashTable::add (hash_table.h lines 244-278): hash the key to a bucket
index and run the bucket scan there, writing the updated chain back.  The
external hashing primitive is modelled as a function reduced modulo the
table size (the Hash object is constructed to yield in-range indices). -/
def NsasHashTable.add {T : Type} (cmp : T → String → Bool)
    (hash : String → Nat) (t : NsasHashTable T) (obj : T) (key : String)
    (replace : Bool) : Bool × NsasHashTable T :=
  let idx := hash key % t.buckets.length
  let r := bucketAdd cmp obj key replace (t.buckets.getD idx [])
  (r.1, ⟨t.buckets.set idx r.2⟩)

theorem list_set_getD {α : Type} (l : List α) (i : Nat) (d : α) :
    l.set i (l.getD i d) = l := by
  induction l generalizing i with
  | nil => simp
  | cons x xs ih =>
    cases i with
    | zero => simp [List.getD]
    | succ j =>
      show x :: xs.set j (xs.getD j d) = x :: xs
      rw [ih j]

theorem bucketAdd_existing {T : Type} (cmp : T → String → Bool) (obj : T)
    (key : String) (lst : List T) (hex : ∃ x ∈ lst, cmp x key = true) :
    bucketAdd cmp obj key false lst = (false, lst) := by
  induction lst with
  | nil => simp at hex
  | cons x xs ih =>
    by_cases hx : cmp x key = true
    · simp [bucketAdd, hx]
    · obtain ⟨y, hy, hcy⟩ := hex
      rcases List.mem_cons.mp hy with hy2 | hy2
      · exact absurd (hy2 ▸ hcy) hx
      · simp [bucketAdd, hx, ih ⟨y, hy2, hcy⟩]

/-- C10: a freshly constructed RRLTable(max_entries) has no hash generation
yet: getEntryCount() returns 0, getBinSize() returns 0, and getGeneration()
returns the sentinel -1 (the first expand is what allocates a hash table). -/
theorem rrlTable_fresh_state (m : Nat) :
    (RRLTable.create m).getEntryCount = 0 ∧
    (RRLTable.create m).getBinSize = 0 ∧
    (RRLTable.create m).getGeneration = some (-1) :=
  ⟨rfl, rfl, rfl⟩

/-- C9: for every nsas HashTable and every key for which a matching entry
already exists in the key's bucket, add with replace = false returns false
and leaves the table completely unchanged — the existing entry keeps its
position and the new object is not inserted anywhere. -/
theorem nsasHashTable_add_existing {T : Type} (cmp : T → String → Bool)
    (hash : String → Nat) (t : NsasHashTable T) (obj : T) (key : String)
    (hex : ∃ x ∈ t.buckets.getD (hash key % t.buckets.length) [],
             cmp x key = true) :
    NsasHashTable.add cmp hash t obj key false = (false, t) := by
  simp only [NsasHashTable.add]
  rw [bucketAdd_existing cmp obj key _ hex, list_set_getD]

theorem nsasHashTable_add_existing_witness :
    (∃ x ∈ (NsasHashTable.mk [[2, 7], [4]] : NsasHashTable Nat).buckets.getD
        ((fun (k : String) => k.length) "ab" %
          (NsasHashTable.mk [[2, 7], [4]] : NsasHashTable Nat).buckets.length) [],
        (fun (x : Nat) (k : String) => x == k.length) x "ab" = true) ∧
    NsasHashTable.add (fun (x : Nat) (k : String) => x == k.length)
        (fun (k : String) => k.length) (NsasHashTable.mk [[2, 7], [4]]) 9 "ab" false =
      (false, NsasHashTable.mk [[2, 7], [4]]) :=
  ⟨by decide,
   nsasHashTable_add_existing (fun (x : Nat) (k : String) => x == k.length)
     (fun (k : String) => k.length) (NsasHashTable.mk [[2, 7], [4]]) 9 "ab" (by decide)⟩

/-- C8: in every RRLTable state reachable through construction, expand and
expandEntries, the current hash (when it exists) stores a generation id
equal to the table's generation counter — so the assertion inside
getGeneration never fails — and old_hash, when present, carries a strictly
smaller generation id. -/
theorem rrlTable_generation_invariant (t : RRLTable) (hr : RRLReachable t) :
    (∀ h, t.hash = some h → h.gen = t.hash_gen) ∧
    (∀ oh, t.old_hash = some oh → oh.gen < t.hash_gen) ∧
    t.getGeneration ≠ none := by
  have main : (∀ h, t.hash = some h → h.gen = t.hash_gen) ∧
      (∀ oh, t.old_hash = some oh → oh.gen < t.hash_gen) := by
    induction hr with
    | create m => simp [RRLTable.create]
    | expand t now ht ih =>
      obtain ⟨ih1, ih2⟩ := ih
      by_cases hc : t.hash.isSome = true ∧ t.probes ≤ 2 * t.searches
      · simpa [RRLTable.expand, hc] using ⟨ih1, ih2⟩
      · constructor
        · intro h hh
          simp [RRLTable.expand, hc] at hh ⊢
          rw [← hh]
        · intro oh hoh
          simp [RRLTable.expand, hc] at hoh ⊢
          exact Nat.lt_succ_of_le (Nat.le_of_eq (ih1 oh hoh))
    | expandEntries t c ht ih =>
      simpa [RRLTable.expandEntries] using ih
  refine ⟨main.1, main.2, ?_⟩
  cases hh : t.hash with
  | none => simp [RRLTable.getGeneration, hh]
  | some h => simp [RRLTable.getGeneration, hh, main.1 h hh]

theorem rrlTable_generation_invariant_witness :
    RRLReachable ((((RRLTable.create 100).expand 0).expandEntries 16).expand 5) ∧
    ((∀ h, ((((RRLTable.create 100).expand 0).expandEntries 16).expand 5).hash = some h →
        h.gen = ((((RRLTable.create 100).expand 0).expandEntries 16).expand 5).hash_gen) ∧
     (∀ oh, ((((RRLTable.create 100).expand 0).expandEntries 16).expand 5).old_hash = some oh →
        oh.gen < ((((RRLTable.create 100).expand 0).expandEntries 16).expand 5).hash_gen) ∧
     ((((RRLTable.create 100).expand 0).expandEntries 16).expand 5).getGeneration ≠ none) :=
  ⟨RRLReachable.expand _ 5 (RRLReachable.expandEntries _ 16
      (RRLReachable.expand _ 0 (RRLReachable.create 100))),
   rrlTable_generation_invariant _
     (RRLReachable.expand _ 5 (RRLReachable.expandEntries _ 16
       (RRLReachable.expand _ 0 (RRLReachable.create 100))))⟩

/-- A concrete writable empty segment used by witnesses. -/
def segW : Segment := ⟨true, 0, []⟩

/-- A concrete writer in state LOADED used by witnesses. -/
def wLoadedW : ZoneWriter MockLoader :=
  ⟨"example.org", false, WState.LOADED, some (MockLoader.start none),
   some ⟨0, true⟩, false, none⟩

/-- C6: state-machine misuse raises invalid-operation.  Calling load in any
state other than INIT — a second time after a successful load, after
install, or after cleanup — returns invalid-operation with the writer, the
segment and the error string unchanged, independently of the loader
operations and factory (so the loader is not invoked and the already loaded
data is not damaged and remains installable).  Calling install in any state
other than LOADED — before a successful load, a second time after install,
or after cleanup — returns invalid-operation with the writer and segment
unchanged. -/
theorem zoneWriter_invalid_state_ops :
    (∀ (σ : Type) (ops : LoaderOps σ) (factory : Option ZoneData → σ)
       (w : ZoneWriter σ) (cl : Nat) (eo : Option String) (seg : Segment),
       w.state ≠ WState.INIT →
       ZoneWriter.load ops factory w cl eo seg =
         (Except.error Failure.invalidOperation, w, seg, eo)) ∧
    (∀ (σ : Type) (ops : LoaderOps σ) (w : ZoneWriter σ) (seg : Segment),
       w.state ≠ WState.LOADED →
       ZoneWriter.install ops w seg =
         (Except.error Failure.invalidOperation, w, seg)) := by
  constructor
  · intro σ ops factory w cl eo seg h
    simp [ZoneWriter.load, h]
  · intro σ ops w seg h
    simp [ZoneWriter.install, h]

theorem zoneWriter_invalid_state_ops_witness :
    (wLoadedW.state ≠ WState.INIT ∧
     ZoneWriter.load (mockOps cfgDefault) (mockCreator false) wLoadedW 0 none segW =
       (Except.error Failure.invalidOperation, wLoadedW, segW, none)) ∧
    ((ZoneWriter.fresh MockLoader "example.org" false).state ≠ WState.LOADED ∧
     ZoneWriter.install (mockOps cfgDefault)
         (ZoneWriter.fresh MockLoader "example.org" false) segW =
       (Except.error Failure.invalidOperation,
        ZoneWriter.fresh MockLoader "example.org" false, segW)) :=
  ⟨⟨by decide,
    zoneWriter_invalid_state_ops.1 MockLoader (mockOps cfgDefault)
      (mockCreator false) wLoadedW 0 none segW (by decide)⟩,
   ⟨by decide,
    zoneWriter_invalid_state_ops.2 MockLoader (mockOps cfgDefault)
      (ZoneWriter.fresh MockLoader "example.org" false) segW (by decide)⟩⟩

/-- C2: strong guarantee of load.  On a fresh writer in INIT whose loader's
load throws (TestException), load propagates the failure and returns the
writer, the segment and the error string unchanged; a subsequent load on
the same writer (with the transient failure gone and data enabled) succeeds
with state LOADED, and a following install publishes exactly the data
produced by that successful load, findable in the zone table with its
record present. -/
theorem zoneWriter_load_strong_guarantee (seg : Segment) (name : String) :
    ZoneWriter.load (mockOps cfgLoadThrow) (mockCreator false)
        (ZoneWriter.fresh MockLoader name false) 0 none seg =
      (Except.error Failure.testException,
       ZoneWriter.fresh MockLoader name false, seg, none) ∧
    ∃ w1 seg1 d,
      ZoneWriter.load (mockOps cfgLoadData) (mockCreator false)
          (ZoneWriter.fresh MockLoader name false) 0 none seg =
        (Except.ok true, w1, seg1, none) ∧
      w1.state = WState.LOADED ∧ w1.data = some d ∧ d.hasRecords = true ∧
      ∃ w2 seg2,
        ZoneWriter.install (mockOps cfgLoadData) w1 seg1 =
          (Except.ok (), w2, seg2) ∧
        w2.state = WState.INSTALLED ∧
        findZone seg2.table name = ⟨RCode.SUCCESS, false, some d⟩ := by
  refine ⟨rfl, ?_⟩
  refine ⟨_, _, ⟨seg.nextId, true⟩, rfl, rfl, rfl, rfl, _, _, rfl, rfl, ?_⟩
  exact findZone_addOrReplace seg.table name ⟨seg.nextId, true⟩ false

/-- C4: round-trip.  After a successful load followed by install, a zone
table find of the writer's zone name returns exactly the ZoneData produced
by the loader; after a second writer for the same name successfully
installs (with fresh, non-reused data), the first ZoneData is no longer
reachable via find. -/
theorem zoneWriter_roundtrip (seg : Segment) (name : String) :
    ∃ d1 w1 seg1,
      ZoneWriter.load (mockOps cfgDefault) (mockCreator false)
          (ZoneWriter.fresh MockLoader name false) 0 none seg =
        (Except.ok true, w1, seg1, none) ∧ w1.data = some d1 ∧
      ∃ w2 seg2,
        ZoneWriter.install (mockOps cfgDefault) w1 seg1 =
          (Except.ok (), w2, seg2) ∧
        findZone seg2.table name = ⟨RCode.SUCCESS, false, some d1⟩ ∧
        ∃ d2 w3 seg3,
          ZoneWriter.load (mockOps cfgDefault) (mockCreator false)
              (ZoneWriter.fresh MockLoader name false) 0 none seg2 =
            (Except.ok true, w3, seg3, none) ∧ w3.data = some d2 ∧
          ∃ w4 seg4,
            ZoneWriter.install (mockOps cfgDefault) w3 seg3 =
              (Except.ok (), w4, seg4) ∧
            findZone seg4.table name = ⟨RCode.SUCCESS, false, some d2⟩ ∧
            d2 ≠ d1 ∧ (findZone seg4.table name).zone_data ≠ some d1 := by
  refine ⟨⟨seg.nextId, false⟩, _, _, rfl, rfl, _, _, rfl,
          findZone_addOrReplace _ _ _ _, ⟨seg.nextId + 1, false⟩, _, _, rfl, rfl,
          _, _, rfl, findZone_addOrReplace _ _ _ _, ?_, ?_⟩
  · simp
  · simp only [ZoneWriter.fresh]
    rw [findZone_addOrReplace]
    simp [allocZoneData, cfgDefault]

/-- C5: lenient loading.  With allow_load_error set and a loader raising a
loader-level data error, load succeeds; the error reason is recorded into
the provided err_out string, which is left untouched when none is provided
or when no error occurs; an empty ZoneData is synthesized; and a subsequent
install publishes a zone table entry found with SUCCESS and the ZONE_EMPTY
flag set. -/
theorem zoneWriter_allow_load_error (seg : Segment) (name : String) (s0 : String) :
    ∃ w1 seg1,
      ZoneWriter.load (mockOps cfgLoaderThrow) (mockCreator false)
          (ZoneWriter.fresh MockLoader name true) 0 (some s0) seg =
        (Except.ok true, w1, seg1, some "faked loader exception") ∧
      w1.state = WState.LOADED ∧ w1.emptyMark = true ∧
      w1.data = some ⟨seg.nextId, false⟩ ∧
      (ZoneWriter.load (mockOps cfgLoaderThrow) (mockCreator false)
          (ZoneWriter.fresh MockLoader name true) 0 none seg).2.2.2 = none ∧
      (ZoneWriter.load (mockOps cfgDefault) (mockCreator false)
          (ZoneWriter.fresh MockLoader name true) 0 (some s0) seg).2.2.2 =
        some s0 ∧
      ∃ w2 seg2,
        ZoneWriter.install (mockOps cfgLoaderThrow) w1 seg1 =
          (Except.ok (), w2, seg2) ∧
        findZone seg2.table name =
          ⟨RCode.SUCCESS, true, some ⟨seg.nextId, false⟩⟩ := by
  refine ⟨_, _, rfl, rfl, rfl, rfl, rfl, rfl, _, _, rfl, ?_⟩
  exact findZone_addOrReplace seg.table name ⟨seg.nextId, false⟩ true

/-- C7: incremental loading.  Called with a positive count limit on a fresh
writer, load performs a bounded unit of work: with the reference mock
loader it returns false on the first call (more work remains, writer still
in INIT) and true on the second (load complete, writer LOADED), after
which install succeeds and the zone is findable. -/
theorem zoneWriter_incremental_load (seg : Segment) (name : String)
    (limit : Nat) (hpos : 0 < limit) :
    ∃ w1,
      ZoneWriter.load (mockOps cfgDefault) (mockCreator false)
          (ZoneWriter.fresh MockLoader name false) limit none seg =
        (Except.ok false, w1, seg, none) ∧
      w1.state = WState.INIT ∧
      ∃ w2 seg2 d,
        ZoneWriter.load (mockOps cfgDefault) (mockCreator false) w1 limit none seg =
          (Except.ok true, w2, seg2, none) ∧
        w2.state = WState.LOADED ∧ w2.data = some d ∧
        ∃ w3 seg3,
          ZoneWriter.install (mockOps cfgDefault) w2 seg2 =
            (Except.ok (), w3, seg3) ∧
          (findZone seg3.table name).code = RCode.SUCCESS := by
  have hne : limit ≠ 0 := Nat.pos_iff_ne_zero.mp hpos
  refine ⟨⟨name, false, WState.INIT, some ⟨none, 0, none, true, false⟩,
          none, false, none⟩, ?_, rfl, ?_⟩
  · simp [ZoneWriter.load, mockOps, mockLoadIncremental, mockCreator,
          MockLoader.start, ZoneWriter.fresh, hne]
  · refine ⟨⟨name, false, WState.LOADED,
            some ⟨none, 0, some ⟨seg.nextId, false⟩, true, true⟩,
            some ⟨seg.nextId, false⟩, false, none⟩,
            { seg with nextId := seg.nextId + 1 }, ⟨seg.nextId, false⟩,
            ?_, rfl, rfl, _, _, rfl, ?_⟩
    · simp [ZoneWriter.load, mockOps, mockLoadIncremental, mockLoad,
            allocZoneData, cfgDefault, hne]
    · rw [findZone_addOrReplace]

theorem zoneWriter_incremental_load_witness :
    0 < 1000 ∧
    ∃ w1,
      ZoneWriter.load (mockOps cfgDefault) (mockCreator false)
          (ZoneWriter.fresh MockLoader "example.org" false) 1000 none segW =
        (Except.ok false, w1, segW, none) ∧
      w1.state = WState.INIT ∧
      ∃ w2 seg2 d,
        ZoneWriter.load (mockOps cfgDefault) (mockCreator false) w1 1000 none segW =
          (Except.ok true, w2, seg2, none) ∧
        w2.state = WState.LOADED ∧ w2.data = some d ∧
        ∃ w3 seg3,
          ZoneWriter.install (mockOps cfgDefault) w2 seg2 =
            (Except.ok (), w3, seg3) ∧
          (findZone seg3.table "example.org").code = RCode.SUCCESS :=
  ⟨by decide, zoneWriter_incremental_load segW "example.org" 1000 (by decide)⟩

/-- C1: for every writer in state LOADED whose loader's commit raises any
failure other than segment-grown (for the mock: a typed failure derived
from the base error type, a std::exception, or a thrown int), install
installs an empty placeholder ZoneData flagged ZONE_EMPTY at the writer's
zone name — so a subsequent zone table find of that name returns SUCCESS
with the ZONE_EMPTY flag set and the placeholder (record-less) data — and
rethrows the original failure unchanged to the caller. -/
theorem zoneWriter_install_commit_failure {σ : Type} (ops : LoaderOps σ)
    (w : ZoneWriter σ) (seg : Segment) (lst l2 : σ) (d : ZoneData)
    (f : Failure) (seg2 : Segment)
    (hst : w.state = WState.LOADED) (hl : w.loaderSt = some lst)
    (hd : w.data = some d)
    (hc : ops.commit d lst seg = (Except.error f, l2, seg2))
    (hf : f ≠ Failure.segmentGrown) :
    ∃ w2 seg3,
      ZoneWriter.install ops w seg = (Except.error f, w2, seg3) ∧
      findZone seg3.table w.name =
        ⟨RCode.SUCCESS, true, some ⟨seg2.nextId, false⟩⟩ := by
  obtain ⟨nm, al, st, lo, da, em, od⟩ := w
  simp only at hst hl hd
  subst hst hl hd
  have hcr : commitWithRetry ops installRetryCap d lst seg =
      (Except.error f, l2, seg2) := by
    unfold commitWithRetry
    rw [hc]
    cases f with
    | segmentGrown => exact absurd rfl hf
    | invalidOperation => rfl
    | zoneLoaderError m => rfl
    | unexpected m => rfl
    | stdError m => rfl
    | untypedInt n => rfl
    | testException => rfl
  refine ⟨⟨nm, al, WState.LOADED, some l2, some d, em,
          (addOrReplace seg2.table nm ⟨seg2.nextId, false⟩ true).1⟩,
         ⟨seg2.writable, seg2.nextId + 1,
          (addOrReplace seg2.table nm ⟨seg2.nextId, false⟩ true).2⟩, ?_, ?_⟩
  · cases f with
    | segmentGrown => exact absurd rfl hf
    | invalidOperation => simp [ZoneWriter.install, hcr, allocZoneData]
    | zoneLoaderError m => simp [ZoneWriter.install, hcr, allocZoneData]
    | unexpected m => simp [ZoneWriter.install, hcr, allocZoneData]
    | stdError m => simp [ZoneWriter.install, hcr, allocZoneData]
    | untypedInt n => simp [ZoneWriter.install, hcr, allocZoneData]
    | testException => simp [ZoneWriter.install, hcr, allocZoneData]
  · exact findZone_addOrReplace seg2.table nm ⟨seg2.nextId, false⟩ true

theorem zoneWriter_install_commit_failure_witness :
    wLoadedW.state = WState.LOADED ∧
    wLoadedW.loaderSt = some (MockLoader.start none) ∧
    wLoadedW.data = some ⟨0, true⟩ ∧
    (mockOps (cfgCommitFail 2)).commit ⟨0, true⟩ (MockLoader.start none) segW =
      (Except.error (Failure.unexpected "test unexpected"),
       MockLoader.start none, segW) ∧
    Failure.unexpected "test unexpected" ≠ Failure.segmentGrown ∧
    ∃ w2 seg3,
      ZoneWriter.install (mockOps (cfgCommitFail 2)) wLoadedW segW =
        (Except.error (Failure.unexpected "test unexpected"), w2, seg3) ∧
      findZone seg3.table wLoadedW.name =
        ⟨RCode.SUCCESS, true, some ⟨segW.nextId, false⟩⟩ :=
  ⟨rfl, rfl, rfl, rfl, by decide,
   zoneWriter_install_commit_failure (mockOps (cfgCommitFail 2)) wLoadedW segW
     (MockLoader.start none) (MockLoader.start none) ⟨0, true⟩
     (Failure.unexpected "test unexpected") segW rfl rfl rfl rfl (by decide)⟩

/-- C3: for every writer in state LOADED whose mock loader's commit raises
segment-grown exactly once, install still succeeds after exactly one retry
— the commit counter ends at exactly 2, so commit was invoked exactly twice
— and afterwards a zone table find of the zone name returns the installed
ZoneData. -/
theorem zoneWriter_install_grown_retry (w : ZoneWriter MockLoader)
    (seg : Segment) (lst : MockLoader) (d : ZoneData)
    (hst : w.state = WState.LOADED) (hl : w.loaderSt = some lst)
    (hd : w.data = some d) (hn : lst.num_committed = 0) :
    ∃ w2 seg2,
      ZoneWriter.install (mockOps cfgGrowOnCommit) w seg =
        (Except.ok (), w2, seg2) ∧
      w2.state = WState.INSTALLED ∧
      w2.loaderSt = some { lst with num_committed := 2 } ∧
      (findZone seg2.table w.name).code = RCode.SUCCESS ∧
      (findZone seg2.table w.name).zone_data = some d := by
  obtain ⟨nm, al, st, lo, da, em, od⟩ := w
  obtain ⟨lod, nc, ldd, ic, lc⟩ := lst
  simp only at hst hl hd hn
  subst hst hl hd hn
  refine ⟨⟨nm, al, WState.INSTALLED, some ⟨lod, 2, ldd, ic, lc⟩, some d, em,
          (addOrReplace seg.table nm d em).1⟩,
         ⟨seg.writable, seg.nextId, (addOrReplace seg.table nm d em).2⟩,
         rfl, rfl, rfl, ?_, ?_⟩
  · rw [findZone_addOrReplace]
  · rw [findZone_addOrReplace]

theorem zoneWriter_install_grown_retry_witness :
    wLoadedW.state = WState.LOADED ∧
    wLoadedW.loaderSt = some (MockLoader.start none) ∧
    wLoadedW.data = some ⟨0, true⟩ ∧
    (MockLoader.start none).num_committed = 0 ∧
    ∃ w2 seg2,
      ZoneWriter.install (mockOps cfgGrowOnCommit) wLoadedW segW =
        (Except.ok (), w2, seg2) ∧
      w2.state = WState.INSTALLED ∧
      w2.loaderSt = some { MockLoader.start none with num_committed := 2 } ∧
      (findZone seg2.table wLoadedW.name).code = RCode.SUCCESS ∧
      (findZone seg2.table wLoadedW.name).zone_data = some ⟨0, true⟩ :=
  ⟨rfl, rfl, rfl, rfl,
   zoneWriter_install_grown_retry wLoadedW segW (MockLoader.start none)
     ⟨0, true⟩ rfl rfl rfl rfl⟩
